import Mathlib

/-!
Verification of the UVC-Link smart-glasses HUD front end.

The development shallowly embeds the TypeScript sources:
  src/components/CameraSelector.tsx  (device enumeration and auto-selection)
  src/components/SmartHUD.tsx        (stream lifecycle, capture-and-analyze)
  src/services/geminiService.ts      (analysis client wrapper)
  src/unnamed/part_000               (shared types)
Pure fragments become Lean functions; the React effect lifecycle for the
media stream becomes an explicit event-step relation.
-/

/-- ConnectionStatus from src/unnamed/part_000. -/
inductive ConnectionStatus where
  | DISCONNECTED
  | SCANNING
  | CONNECTED
  | ERROR
  deriving DecidableEq, Repr

/-- VideoDevice from src/unnamed/part_000. -/
structure VideoDevice where
  deviceId : String
  label : String
  deriving DecidableEq, Repr

/-- JavaScript truthiness test for an optional string: null and the empty
string are falsy. Models conditions such as `!selectedDeviceId`. -/
def jsFalsy : Option String → Bool
  | none => true
  | some s => s.isEmpty

/-- Substring occurrence over character lists: pat occurs somewhere in l.
Models the JavaScript String.includes method. -/
def listContainsSub (pat : List Char) : List Char → Bool
  | [] => pat.isPrefixOf ([] : List Char)
  | c :: t => pat.isPrefixOf (c :: t) || listContainsSub pat t

/-- The lowercased character sequence of a string (JavaScript
toLowerCase, restricted to the per-character case mapping). -/
def lowerChars (s : String) : List Char :=
  s.data.map Char.toLower

/-- label.toLowerCase().includes(pat) for a lowercase pattern literal. -/
def lowerIncludes (label pat : String) : Bool :=
  listContainsSub pat.data (lowerChars label)

/-- The label predicate of getDevices in src/components/CameraSelector.tsx
(lines 29 to 34): the label, lowercased, includes "usb" or "external". -/
def isExternalLabel (label : String) : Bool :=
  lowerIncludes label "usb" || lowerIncludes label "external"

/-- The label predicate as the specification states it (and as the older
snapshot of getDevices embedded in src/components/SmartHUD.tsx, lines 514
to 522, implements it): also matches "uvc". -/
def claimExternalLabel (label : String) : Bool :=
  lowerIncludes label "usb" || lowerIncludes label "external" ||
    lowerIncludes label "uvc"

/-- Auto-selection step of getDevices (CameraSelector.tsx lines 29 to 34):
when no selection exists and the scan produced devices, call onSelect with
the first device whose label looks external, else the first device.
Returns the argument passed to onSelect, or none when onSelect is not
called. -/
def getDevicesAutoSelect (selectedDeviceId : Option String)
    (videoDevices : List VideoDevice) : Option String :=
  if jsFalsy selectedDeviceId && decide (0 < videoDevices.length) then
    match videoDevices.find? (fun d => isExternalLabel d.label) with
    | some external => some external.deviceId
    | none => videoDevices.head?.map VideoDevice.deviceId
  else
    none

/-- The auto-selection target exactly as the claim words it: the first
device whose label matches usb, external or uvc case-insensitively if any
exists, else the first device in the returned order. -/
def specClaimTarget (videoDevices : List VideoDevice) : Option String :=
  match (videoDevices.filter (fun d => claimExternalLabel d.label)).head? with
  | some external => some external.deviceId
  | none => videoDevices.head?.map VideoDevice.deviceId

/-- The amended auto-selection target: as the claim, but the label scan is
for "usb" and "external" only, matching CameraSelector.tsx. -/
def amendedTarget (videoDevices : List VideoDevice) : Option String :=
  match (videoDevices.filter (fun d => isExternalLabel d.label)).head? with
  | some external => some external.deviceId
  | none => videoDevices.head?.map VideoDevice.deviceId

/-- Raw entry of the platform device list, as consumed by getDevices. -/
structure RawMediaDeviceInfo where
  deviceId : String
  kind : String
  label : String
  deriving DecidableEq, Repr

/-- Label fallback of getDevices: an empty (falsy) platform label is
replaced by a truncated device id. -/
def deviceLabelOf (d : RawMediaDeviceInfo) : String :=
  if d.label.isEmpty then "Camera " ++ (d.deviceId.take 5) ++ "..." else d.label

/-- The videoDevices computation of getDevices: keep videoinput entries,
attach labels with the fallback. -/
def toVideoDevices (allDevices : List RawMediaDeviceInfo) : List VideoDevice :=
  (allDevices.filter (fun d => d.kind == "videoinput")).map
    (fun d => { deviceId := d.deviceId, label := deviceLabelOf d })

/-- Component state of CameraSelector: the stored device list and the
permission flag. -/
structure CameraSelectorState where
  devices : List VideoDevice
  permissionGranted : Bool
  deriving DecidableEq, Repr

/-- Initial CameraSelector state: useState gives an empty list and a false
permission flag. -/
def initCameraSelectorState : CameraSelectorState :=
  { devices := [], permissionGranted := false }

/-- Outcome of one scan: either the platform device list (permission probe
and enumeration both succeeded) or a failure thrown anywhere in the try
block. -/
inductive ScanOutcome where
  | success (allDevices : List RawMediaDeviceInfo)
  | failure
  deriving DecidableEq, Repr

/-- getDevices of src/components/CameraSelector.tsx as a state transition:
given the current component state, the current selection and the scan
outcome, produce the next component state and the onSelect argument (none
when onSelect is not invoked). The catch branch only clears the
permission flag. -/
def getDevices (st : CameraSelectorState) (selectedDeviceId : Option String) :
    ScanOutcome → CameraSelectorState × Option String
  | .success allDevices =>
    let videoDevices := toVideoDevices allDevices
    ({ devices := videoDevices, permissionGranted := true },
      getDevicesAutoSelect selectedDeviceId videoDevices)
  | .failure => ({ st with permissionGranted := false }, none)

/-- Error-message mapping of the catch branch of startStream
(src/components/SmartHUD.tsx lines 79 to 91). -/
def streamErrorMessage (errName errMsg : String) : String :=
  if errName = "NotReadableError" then "System Busy. Close other camera apps."
  else if errName = "OverconstrainedError" then "Resolution not supported."
  else if errName = "NotAllowedError" then "Permission Denied."
  else errName ++ ": " ++ errMsg

/-- Status and message recorded by the catch branch of startStream. -/
structure HUDFailure where
  status : ConnectionStatus
  errorMessage : Option String
  deriving DecidableEq, Repr

/-- The catch branch of startStream: set status to ERROR and record the
mapped message. -/
def startStreamCatch (errName errMsg : String) : HUDFailure :=
  { status := .ERROR, errorMessage := some (streamErrorMessage errName errMsg) }

/-- Local display state of the SmartHUD component (the useState fields
touched by capture-and-analyze and attemptPlay). -/
structure HUDState where
  status : ConnectionStatus
  errorMessage : Option String
  isAnalyzing : Bool
  aiResponse : Option String
  lastAnalysisTime : String
  needsUserAction : Bool
  deriving DecidableEq, Repr

/-- The JavaScript padStart(2, zero) applied to the decimal rendering of a
number, as used for the analysis timestamp. -/
def pad2 (n : Nat) : String :=
  let s := toString n
  if s.length < 2 then "0" ++ s else s

/-- Timestamp format of handleCaptureAndAnalyze: zero-padded
hour:minute:second. -/
def formatTime (h m s : Nat) : String :=
  pad2 h ++ ":" ++ pad2 m ++ ":" ++ pad2 s

/-- Result of one run of handleCaptureAndAnalyze: the next component state
and whether analyzeFrame was invoked during the run. -/
structure CaptureRun where
  state : HUDState
  calledAnalyzeFrame : Bool
  deriving DecidableEq, Repr

/-- handleCaptureAndAnalyze of src/components/SmartHUD.tsx (lines 117 to
152) as a state transition. Inputs beyond the component state: presence of
the video and canvas refs, the dimensions the video surface reports,
whether the 2d context is available, the outcome of the analyzeFrame call,
and the wall clock at completion. -/
def handleCaptureAndAnalyze (st : HUDState) (videoPresent canvasPresent : Bool)
    (videoWidth videoHeight : Nat) (ctxPresent : Bool)
    (analysis : Except String String) (nowH nowM nowS : Nat) : CaptureRun :=
  if !videoPresent || !canvasPresent || st.isAnalyzing then
    { state := st, calledAnalyzeFrame := false }
  else
    let st1 := { st with isAnalyzing := true, aiResponse := none }
    if videoWidth == 0 || videoHeight == 0 then
      { state := { st1 with
          aiResponse := some "Error: No video data (0x0 resolution)",
          isAnalyzing := false },
        calledAnalyzeFrame := false }
    else if ctxPresent then
      match analysis with
      | .ok result =>
        { state := { st1 with
            aiResponse := some result,
            lastAnalysisTime := formatTime nowH nowM nowS,
            isAnalyzing := false },
          calledAnalyzeFrame := true }
      | .error _ =>
        { state := { st1 with
            aiResponse := some "Analysis failed. Check API configuration.",
            isAnalyzing := false },
          calledAnalyzeFrame := true }
    else
      { state := st1, calledAnalyzeFrame := false }

/-- The disabled condition of the Analyze Scene button
(src/components/SmartHUD.tsx lines 281 to 290). -/
def analyzeButtonDisabled (status : ConnectionStatus) (isAnalyzing : Bool) : Bool :=
  status != .CONNECTED || isAnalyzing

/-- attemptPlay of src/components/SmartHUD.tsx (lines 105 to 115) as a
state transition, parameterized by whether the video ref is present and
whether the play call succeeds (autoplay allowed) or rejects (autoplay
blocked). -/
def attemptPlay (videoPresent playResolves : Bool) (st : HUDState) : HUDState :=
  if !videoPresent then st
  else if playResolves then
    { st with status := .CONNECTED, needsUserAction := false }
  else
    { st with needsUserAction := true }

/-- The Tap to Start overlay (SmartHUD.tsx lines 201 to 213) is rendered
exactly when needsUserAction holds; its button invokes attemptPlay. -/
def tapToStartVisible (st : HUDState) : Bool :=
  st.needsUserAction

/-- The data-url strip of analyzeFrame in src/services/geminiService.ts:
the anchored pattern removes one leading data:image mime prefix. -/
def stripDataUrl (s : String) : String :=
  if ("data:image/png;base64,").isPrefixOf s then
    s.drop ("data:image/png;base64,").length
  else if ("data:image/jpeg;base64,").isPrefixOf s then
    s.drop ("data:image/jpeg;base64,").length
  else if ("data:image/webp;base64,").isPrefixOf s then
    s.drop ("data:image/webp;base64,").length
  else s

/-- analyzeFrame of src/services/geminiService.ts, parameterized by the
configured API key (none or empty is falsy) and the remote service as a
function from the cleaned payload to a response text or a thrown error.
The body throws on a falsy key, maps an empty (falsy) response text to a
fixed fallback, and the catch re-throws every failure as one opaque
message. -/
def analyzeFrame (apiKey : Option String)
    (service : String → Except String String) (base64Image : String) :
    Except String String :=
  if jsFalsy apiKey then .error "Visual cortex analysis failed."
  else
    match service (stripDataUrl base64Image) with
    | .error _ => .error "Visual cortex analysis failed."
    | .ok text => .ok (if text.isEmpty then "No analysis data returned." else text)

/-- Example device list: an internal camera first, a UVC-labeled camera
second. Used to instantiate theorems on concrete inputs. -/
def exDevices1 : List VideoDevice :=
  [{ deviceId := "cam0", label := "Integrated Webcam" },
   { deviceId := "cam1", label := "UVC Camera" }]

/-- Example selector state after a successful scan stored one device. -/
def exSelectorState1 : CameraSelectorState :=
  { devices := [{ deviceId := "a", label := "Cam" }], permissionGranted := true }

/-- Example HUD state: connected and idle. -/
def hudConnectedIdle : HUDState :=
  { status := .CONNECTED, errorMessage := none, isAnalyzing := false,
    aiResponse := none, lastAnalysisTime := "--:--", needsUserAction := false }

/-- Example HUD state: connected with an analysis in flight. -/
def hudConnectedBusy : HUDState :=
  { hudConnectedIdle with isAnalyzing := true }

/-- Example HUD state: scanning, idle. -/
def hudScanningIdle : HUDState :=
  { hudConnectedIdle with status := .SCANNING }

/-- State of the stream-owning effect of SmartHUD (lines 24 to 103) seen
across its lifecycle. Stream handles are identified with the id of the
getUserMedia request that produces them. The fields mirror: the component
mount flag, the deviceId prop, the request id of the live effect instance
(the only closure whose isMounted is still true), the id counter, the
currentStream variable of the live closure, the srcObject of the video
element, which requests the platform has resolved, and how many times each
stream had its tracks stopped. -/
structure StreamLifecycleState where
  mounted : Bool
  devId : Option Nat
  activeReq : Option Nat
  nextReq : Nat
  curStream : Option Nat
  srcObject : Option Nat
  delivered : Nat → Bool
  stops : Nat → Nat

/-- Record one more track-stop call on stream s. -/
def bumpStops (stops : Nat → Nat) (s : Nat) : Nat → Nat :=
  fun n => if n = s then stops n + 1 else stops n

/-- Stop all tracks of an optional stream handle. -/
def stopTracks (stops : Nat → Nat) : Option Nat → (Nat → Nat)
  | some s => bumpStops stops s
  | none => stops

/-- Events driving the stream lifecycle: the deviceId prop changes, a
pending getUserMedia request resolves, or the component unmounts. -/
inductive HUDEvent where
  | select (d : Nat)
  | arrive (r : Nat)
  | unmount

/-- One lifecycle step. select d runs the React cleanup of the previous
effect instance (stop currentStream) and then the new effect body of
startStream (stop the srcObject tracks, issue a fresh getUserMedia
request). arrive r runs the continuation after getUserMedia resolves: if
the owning closure was cleaned up (component unmounted or deviceId changed
since), the stream is stopped and discarded, otherwise it becomes
currentStream and is bound to the video element. unmount runs the cleanup
of the live instance. -/
def stepStream (st : StreamLifecycleState) : HUDEvent → StreamLifecycleState
  | .select d =>
    if !st.mounted || st.devId == some d then st
    else
      let stops1 := stopTracks st.stops st.curStream
      let stops2 := stopTracks stops1 st.srcObject
      { st with devId := some d, activeReq := some st.nextReq,
                nextReq := st.nextReq + 1, curStream := none, stops := stops2 }
  | .arrive r =>
    if decide (r < st.nextReq) && !st.delivered r then
      let delivered1 := fun n => n == r || st.delivered n
      if st.mounted && st.activeReq == some r then
        { st with curStream := some r, srcObject := some r, delivered := delivered1 }
      else
        { st with delivered := delivered1, stops := bumpStops st.stops r }
    else st
  | .unmount =>
    if st.mounted then
      { st with mounted := false, stops := stopTracks st.stops st.curStream }
    else st

/-- Initial lifecycle state: mounted, no device selected, no request, no
stream, nothing delivered, nothing stopped. -/
def initStream : StreamLifecycleState :=
  { mounted := true, devId := none, activeReq := none, nextReq := 0,
    curStream := none, srcObject := none,
    delivered := fun _ => false, stops := fun _ => 0 }

/-- Run a list of lifecycle events. -/
def runStream : List HUDEvent → StreamLifecycleState → StreamLifecycleState
  | [], st => st
  | e :: es, st => runStream es (stepStream st e)

/-- Reachable lifecycle states. -/
inductive ReachableStream : StreamLifecycleState → Prop where
  | init : ReachableStream initStream
  | step (e : HUDEvent) {st : StreamLifecycleState} :
      ReachableStream st → ReachableStream (stepStream st e)

/-- A stream is open when the platform delivered it and none of its
track-stop calls have happened. -/
def StreamOpen (st : StreamLifecycleState) (s : Nat) : Prop :=
  st.delivered s = true ∧ st.stops s = 0

/-- Lifecycle invariant: every open stream is the currentStream of the
live closure; currentStream always is the delivered answer to the live
request; delivered requests were issued. -/
def StreamInv (st : StreamLifecycleState) : Prop :=
  (∀ s, st.delivered s = true → st.stops s = 0 → st.curStream = some s)
  ∧ (∀ s, st.curStream = some s → st.activeReq = some s ∧ st.delivered s = true)
  ∧ (∀ r, st.delivered r = true → r < st.nextReq)

theorem stopTracks_le (stops : Nat → Nat) (o : Option Nat) (n : Nat) :
    stops n ≤ stopTracks stops o n := by
  cases o with
  | none => exact Nat.le_refl _
  | some s =>
    by_cases hn : n = s
    · simp [stopTracks, bumpStops, hn]
    · simp [stopTracks, bumpStops, hn]

theorem stopTracks_eq_zero {stops : Nat → Nat} {o : Option Nat} {n : Nat}
    (h : stopTracks stops o n = 0) : stops n = 0 :=
  Nat.le_antisymm (h ▸ stopTracks_le stops o n) (Nat.zero_le _)

theorem stopTracks_ne_of_zero {stops : Nat → Nat} {o : Option Nat} {n : Nat}
    (h : stopTracks stops o n = 0) : o ≠ some n := by
  intro hc
  subst hc
  simp [stopTracks, bumpStops] at h

theorem stopTracks_self (stops : Nat → Nat) (s : Nat) :
    stopTracks stops (some s) s = stops s + 1 := by
  simp [stopTracks, bumpStops]

theorem streamInv_init : StreamInv initStream := by
  refine ⟨?_, ?_, ?_⟩ <;> intro s <;> simp [initStream]

theorem streamInv_step {st : StreamLifecycleState} (e : HUDEvent)
    (h : StreamInv st) : StreamInv (stepStream st e) := by
  obtain ⟨h1, h2, h3⟩ := h
  cases e with
  | select d =>
    by_cases hg : (!st.mounted || st.devId == some d) = true
    · simpa [stepStream, hg] using ⟨h1, h2, h3⟩
    · rw [Bool.not_eq_true] at hg
      simp only [stepStream, hg, Bool.false_eq_true, if_false]
      refine ⟨?_, ?_, ?_⟩
      · intro s hds hz
        exfalso
        have hz1 : stopTracks st.stops st.curStream s = 0 := stopTracks_eq_zero hz
        have hz0 : st.stops s = 0 := stopTracks_eq_zero hz1
        exact stopTracks_ne_of_zero hz1 (h1 s hds hz0)
      · intro s hc
        simp at hc
      · intro r hr
        exact Nat.lt_succ_of_lt (h3 r hr)
  | arrive r =>
    by_cases hg : (decide (r < st.nextReq) && !st.delivered r) = true
    · have hiss : r < st.nextReq := by
        have := (Bool.and_eq_true _ _).mp hg
        exact of_decide_eq_true this.1
      have hfr : st.delivered r = false := by
        have := (Bool.and_eq_true _ _).mp hg
        simpa using this.2
      by_cases hacc : (st.mounted && st.activeReq == some r) = true
      · simp only [stepStream, hg, if_true, hacc]
        have hreq : st.activeReq = some r := by
          have := (Bool.and_eq_true _ _).mp hacc
          exact eq_of_beq this.2
        refine ⟨?_, ?_, ?_⟩
        · intro s hds _
          by_cases hsr : s = r
          · rw [hsr]
          · exfalso
            have hdel : st.delivered s = true := by
              simpa [hsr] using hds
            have hsN : st.activeReq = some s :=
              (h2 s (h1 s hdel (by
                have hz : st.stops s = 0 := by assumption
                exact hz))).1
            rw [hreq] at hsN
            exact hsr (Option.some.injEq .. ▸ (by simpa using hsN.symm))
        · intro s hc
          have hsr : s = r := by simpa using hc.symm
          subst hsr
          constructor
          · exact hreq
          · simp
        · intro q hq
          by_cases hqr : q = r
          · subst hqr; exact hiss
          · exact h3 q (by simpa [hqr] using hq)
      · rw [Bool.not_eq_true] at hacc
        simp only [stepStream, hg, if_true, hacc, Bool.false_eq_true, if_false]
        refine ⟨?_, ?_, ?_⟩
        · intro s hds hz
          by_cases hsr : s = r
          · exfalso
            subst hsr
            simp [bumpStops] at hz
          · have hdel : st.delivered s = true := by simpa [hsr] using hds
            have hz0 : st.stops s = 0 := by simpa [bumpStops, hsr] using hz
            exact h1 s hdel hz0
        · intro s hc
          refine ⟨(h2 s hc).1, ?_⟩
          have := (h2 s hc).2
          simp [this]
        · intro q hq
          by_cases hqr : q = r
          · subst hqr; exact hiss
          · exact h3 q (by simpa [hqr] using hq)
    · rw [Bool.not_eq_true] at hg
      simpa [stepStream, hg] using ⟨h1, h2, h3⟩
  | unmount =>
    by_cases hm : st.mounted = true
    · simp only [stepStream, hm, if_true]
      refine ⟨?_, ?_, ?_⟩
      · intro s hds hz
        exfalso
        have hz0 : st.stops s = 0 := stopTracks_eq_zero hz
        exact stopTracks_ne_of_zero hz (h1 s hds hz0)
      · exact h2
      · exact h3
    · rw [Bool.not_eq_true] at hm
      simpa [stepStream, hm] using ⟨h1, h2, h3⟩

theorem streamInv_reachable {st : StreamLifecycleState}
    (h : ReachableStream st) : StreamInv st := by
  induction h with
  | init => exact streamInv_init
  | step e _ ih => exact streamInv_step e ih

theorem stepStream_stops_stable {st : StreamLifecycleState} {s : Nat}
    (hm : st.mounted = false) (hd : st.delivered s = true) (e : HUDEvent) :
    (stepStream st e).stops s = st.stops s ∧ (stepStream st e).mounted = false
    ∧ (stepStream st e).delivered s = true := by
  cases e with
  | select d => simp [stepStream, hm, hd]
  | unmount => simp [stepStream, hm, hd]
  | arrive r =>
    by_cases hg : (decide (r < st.nextReq) && !st.delivered r) = true
    · have hacc : (st.mounted && st.activeReq == some r) = false := by simp [hm]
      have hsr : s ≠ r := by
        intro hsr
        subst hsr
        simp [hd] at hg
      simp only [stepStream, hg, if_true, hacc, Bool.false_eq_true, if_false]
      refine ⟨by simp [bumpStops, hsr], hm, by simp [hd]⟩
    · rw [Bool.not_eq_true] at hg
      simp [stepStream, hg, hm, hd]

theorem runStream_stops_stable (evs : List HUDEvent) {st : StreamLifecycleState}
    {s : Nat} (hm : st.mounted = false) (hd : st.delivered s = true) :
    (runStream evs st).stops s = st.stops s := by
  induction evs generalizing st with
  | nil => rfl
  | cons e es ih =>
    obtain ⟨hs, hm2, hd2⟩ := stepStream_stops_stable hm hd e
    rw [runStream, ih hm2 hd2, hs]

/-- C7: In every reachable lifecycle state, (a) at most one stream is open
(delivered and never stopped); (b) changing the selected device id while a
stream is current stops that stream in the very step that issues the new
request, and the stream answering the new request is not yet delivered at
that moment; (c) unmounting while a stream is open stops its tracks
exactly once: the stop count becomes one and stays one under every
continuation of the run. -/
theorem hud_stream_exclusive (st : StreamLifecycleState)
    (hre : ReachableStream st) :
    (∀ s1 s2, StreamOpen st s1 → StreamOpen st s2 → s1 = s2)
    ∧ (∀ d s, st.mounted = true → st.devId ≠ some d → st.curStream = some s →
        st.stops s + 1 ≤ (stepStream st (.select d)).stops s
        ∧ (stepStream st (.select d)).activeReq = some st.nextReq
        ∧ (stepStream st (.select d)).delivered st.nextReq = false)
    ∧ (∀ s, st.mounted = true → st.curStream = some s → StreamOpen st s →
        (stepStream st .unmount).stops s = 1
        ∧ ∀ evs, (runStream evs (stepStream st .unmount)).stops s = 1) := by
  obtain ⟨h1, h2, h3⟩ := streamInv_reachable hre
  refine ⟨?_, ?_, ?_⟩
  · rintro s1 s2 ⟨hd1, hz1⟩ ⟨hd2, hz2⟩
    have e1 := h1 s1 hd1 hz1
    have e2 := h1 s2 hd2 hz2
    rw [e1] at e2
    exact Option.some.inj e2
  · intro d s hm hdev hcur
    have hguard : (!st.mounted || st.devId == some d) = false := by
      simp [hm, beq_eq_false_iff_ne.mpr hdev]
    simp only [stepStream, hguard, Bool.false_eq_true, if_false]
    refine ⟨?_, by simp, ?_⟩
    · have hfirst : stopTracks st.stops st.curStream s = st.stops s + 1 := by
        rw [hcur, stopTracks_self]
      calc st.stops s + 1 = stopTracks st.stops st.curStream s := hfirst.symm
        _ ≤ stopTracks (stopTracks st.stops st.curStream) st.srcObject s :=
            stopTracks_le _ _ _
    · cases hdel : st.delivered st.nextReq with
      | false => rfl
      | true => exact absurd (h3 _ hdel) (Nat.lt_irrefl _)
  · rintro s hm hcur ⟨hd, hz⟩
    have hstep : (stepStream st .unmount).stops s = 1 := by
      simp [stepStream, hm, hcur, stopTracks_self, hz]
    refine ⟨hstep, fun evs => ?_⟩
    have hm2 : (stepStream st .unmount).mounted = false := by
      simp [stepStream, hm]
    have hd2 : (stepStream st .unmount).delivered s = true := by
      simpa [stepStream, hm] using hd
    rw [runStream_stops_stable evs hm2 hd2, hstep]

theorem hud_stream_exclusive_witness :
    (stepStream (stepStream (stepStream initStream (.select 5)) (.arrive 0))
        .unmount).stops 0 = 1 := by
  have h := hud_stream_exclusive
    (stepStream (stepStream initStream (.select 5)) (.arrive 0))
    (ReachableStream.step _ (ReachableStream.step _ ReachableStream.init))
  exact (h.2.2 0 rfl rfl ⟨rfl, rfl⟩).1

/-- C8: a getUserMedia completion that arrives after the component
unmounted or the device id changed (the owning closure is no longer the
live one) is discarded: currentStream and the video binding are untouched
and the late stream gets its tracks stopped. -/
theorem hud_stale_result_discarded (st : StreamLifecycleState) (r : Nat)
    (hissued : r < st.nextReq) (hfresh : st.delivered r = false)
    (hstale : st.mounted = false ∨ st.activeReq ≠ some r) :
    (stepStream st (.arrive r)).curStream = st.curStream
    ∧ (stepStream st (.arrive r)).srcObject = st.srcObject
    ∧ (stepStream st (.arrive r)).stops r = st.stops r + 1 := by
  have hguard : (decide (r < st.nextReq) && !st.delivered r) = true := by
    simp [hissued, hfresh]
  have hacc : (st.mounted && st.activeReq == some r) = false := by
    rcases hstale with h | h
    · simp [h]
    · simp [beq_eq_false_iff_ne.mpr h]
  simp [stepStream, hguard, hacc, bumpStops]

theorem hud_stale_result_discarded_witness :
    (stepStream (runStream [.select 1, .select 2] initStream)
        (.arrive 0)).curStream = none
    ∧ (stepStream (runStream [.select 1, .select 2] initStream)
        (.arrive 0)).stops 0 = 1 := by
  have h := hud_stale_result_discarded
    (runStream [.select 1, .select 2] initStream) 0
    (by decide) rfl (Or.inr (by decide))
  exact ⟨h.1, h.2.2⟩

theorem find?_eq_head?_filter (p : α → Bool) :
    ∀ l : List α, l.find? p = (l.filter p).head?
  | [] => rfl
  | a :: t => by
    by_cases h : p a = true
    · rw [List.find?_cons_of_pos _ h, List.filter_cons_of_pos h]
      rfl
    · rw [List.find?_cons_of_neg _ (by simpa using h),
        List.filter_cons_of_neg (by simpa using h)]
      exact find?_eq_head?_filter p t

/-- C1 counterexample: the claim says a device whose label contains "uvc"
is preferred over the first device, but getDevices in CameraSelector.tsx
scans labels only for "usb" and "external", so on a list whose second
device is labeled "UVC Camera" it selects the first device while the claim
selects the second. -/
theorem camSel_autoSelect_counterexample :
    getDevicesAutoSelect none exDevices1 = some "cam0"
    ∧ specClaimTarget exDevices1 = some "cam1"
    ∧ some ("cam0" : String) ≠ some "cam1" := by
  refine ⟨by decide, by decide, by decide⟩

/-- C1 (amended): when no selection exists and the scan yields at least
one device, exactly one device is auto-selected, and it is the first
device whose label contains "usb" or "external" case-insensitively if any
exists, else the first device in the returned order. -/
theorem camSel_autoSelect_amended (selectedDeviceId : Option String)
    (videoDevices : List VideoDevice)
    (hsel : jsFalsy selectedDeviceId = true) (hne : videoDevices ≠ []) :
    getDevicesAutoSelect selectedDeviceId videoDevices = amendedTarget videoDevices
    ∧ (getDevicesAutoSelect selectedDeviceId videoDevices).isSome = true := by
  have hlen : decide (0 < videoDevices.length) = true := by
    simpa [List.length_pos] using hne
  have hmain : getDevicesAutoSelect selectedDeviceId videoDevices =
      amendedTarget videoDevices := by
    unfold getDevicesAutoSelect amendedTarget
    rw [hsel, hlen, find?_eq_head?_filter]
    rfl
  refine ⟨hmain, ?_⟩
  rw [hmain]
  unfold amendedTarget
  cases hf : (videoDevices.filter fun d => isExternalLabel d.label).head? with
  | some d => simp
  | none =>
    cases videoDevices with
    | nil => exact absurd rfl hne
    | cons a t => simp

theorem camSel_autoSelect_amended_witness :
    getDevicesAutoSelect none [{ deviceId := "cam1", label := "USB cam" }]
        = amendedTarget [{ deviceId := "cam1", label := "USB cam" }]
    ∧ (getDevicesAutoSelect none
        [{ deviceId := "cam1", label := "USB cam" }]).isSome = true :=
  camSel_autoSelect_amended none
    [{ deviceId := "cam1", label := "USB cam" }] rfl (by decide)

/-- C2: every stream-open failure sets status to ERROR, and the recorded
message is determined by the failure name: NotAllowedError maps to the
permission-denied message, NotReadableError to the device-busy message,
OverconstrainedError to the resolution message, and every other name to a
generic message carrying the raw failure identifier and text. -/
theorem hud_stream_error_mapping (errName errMsg : String) :
    (startStreamCatch errName errMsg).status = .ERROR
    ∧ (errName = "NotAllowedError" →
        (startStreamCatch errName errMsg).errorMessage = some "Permission Denied.")
    ∧ (errName = "NotReadableError" →
        (startStreamCatch errName errMsg).errorMessage =
          some "System Busy. Close other camera apps.")
    ∧ (errName = "OverconstrainedError" →
        (startStreamCatch errName errMsg).errorMessage =
          some "Resolution not supported.")
    ∧ (errName ≠ "NotAllowedError" → errName ≠ "NotReadableError" →
        errName ≠ "OverconstrainedError" →
        (startStreamCatch errName errMsg).errorMessage =
          some (errName ++ ": " ++ errMsg)) := by
  refine ⟨rfl, ?_, ?_, ?_, ?_⟩
  · intro h; subst h; rfl
  · intro h; subst h; rfl
  · intro h; subst h; rfl
  · intro h1 h2 h3
    simp [startStreamCatch, streamErrorMessage, h1, h2, h3]

theorem hud_stream_error_mapping_witness :
    (startStreamCatch "NotAllowedError" "denied by user").errorMessage =
      some "Permission Denied."
    ∧ (startStreamCatch "AbortError" "boom").errorMessage =
      some ("AbortError" ++ ": " ++ "boom") :=
  ⟨(hud_stream_error_mapping "NotAllowedError" "denied by user").2.1 rfl,
   (hud_stream_error_mapping "AbortError" "boom").2.2.2.2
     (by decide) (by decide) (by decide)⟩

/-- C3 counterexample: after a successful scan stored one device, a
failing re-scan leaves the stored device list non-empty (the catch branch
only clears the permission flag), contradicting the claim that every
failing scan results in an empty device list. -/
theorem camSel_scan_failure_counterexample :
    (getDevices exSelectorState1 none .failure).1.permissionGranted = false
    ∧ (getDevices exSelectorState1 none .failure).1.devices ≠ [] := by
  refine ⟨rfl, by decide⟩

/-- C3 (amended): a failing scan sets permissionGranted to false, makes no
selection, and leaves the stored device list unchanged; in particular a
failing scan from the initial component state leaves the list empty. -/
theorem camSel_scan_failure_amended (st : CameraSelectorState)
    (selectedDeviceId : Option String) :
    (getDevices st selectedDeviceId .failure).1.permissionGranted = false
    ∧ (getDevices st selectedDeviceId .failure).1.devices = st.devices
    ∧ (getDevices st selectedDeviceId .failure).2 = none
    ∧ (getDevices initCameraSelectorState selectedDeviceId .failure).1.devices = [] :=
  ⟨rfl, rfl, rfl, rfl⟩

/-- C4: a capture attempt that reaches the dimension guard with a video
surface reporting zero width or zero height stores the literal message
about missing video data and never invokes analyzeFrame. -/
theorem hud_zero_resolution_guard (st : HUDState) (videoWidth videoHeight : Nat)
    (ctxPresent : Bool) (analysis : Except String String) (nowH nowM nowS : Nat)
    (hidle : st.isAnalyzing = false) (hz : videoWidth = 0 ∨ videoHeight = 0) :
    (handleCaptureAndAnalyze st true true videoWidth videoHeight ctxPresent
        analysis nowH nowM nowS).state.aiResponse =
      some "Error: No video data (0x0 resolution)"
    ∧ (handleCaptureAndAnalyze st true true videoWidth videoHeight ctxPresent
        analysis nowH nowM nowS).calledAnalyzeFrame = false := by
  have hdim : (videoWidth == 0 || videoHeight == 0) = true := by
    rcases hz with h | h <;> simp [h]
  simp [handleCaptureAndAnalyze, hidle, hdim]

theorem hud_zero_resolution_guard_witness :
    (handleCaptureAndAnalyze hudConnectedIdle
        true true 0 480 true (.ok "a desk") 1 2 3).state.aiResponse =
      some "Error: No video data (0x0 resolution)"
    ∧ (handleCaptureAndAnalyze hudConnectedIdle
        true true 0 480 true (.ok "a desk") 1 2 3).calledAnalyzeFrame = false :=
  hud_zero_resolution_guard hudConnectedIdle 0 480 true (.ok "a desk") 1 2 3
    rfl (Or.inl rfl)

/-- C5: capture-and-analyze is single-flight: invoked while isAnalyzing
holds it changes nothing and does not call analyzeFrame; and the Analyze
Scene button is enabled exactly when status is CONNECTED and no analysis
is in flight. -/
theorem hud_capture_single_flight :
    (∀ (st : HUDState) (vp cp : Bool) (w h : Nat) (cx : Bool)
        (an : Except String String) (nH nM nS : Nat), st.isAnalyzing = true →
        handleCaptureAndAnalyze st vp cp w h cx an nH nM nS =
          { state := st, calledAnalyzeFrame := false })
    ∧ (∀ (s : ConnectionStatus) (a : Bool),
        analyzeButtonDisabled s a = false ↔ s = .CONNECTED ∧ a = false) := by
  constructor
  · intro st vp cp w h cx an nH nM nS hbusy
    simp [handleCaptureAndAnalyze, hbusy]
  · intro s a
    constructor
    · intro h
      simpa [analyzeButtonDisabled] using h
    · rintro ⟨h1, h2⟩
      simp [analyzeButtonDisabled, h1, h2]

theorem hud_capture_single_flight_witness :
    handleCaptureAndAnalyze hudConnectedBusy
        true true 640 480 true (.ok "a desk") 1 2 3 =
      { state := hudConnectedBusy, calledAnalyzeFrame := false } :=
  hud_capture_single_flight.1 hudConnectedBusy true true 640 480 true
    (.ok "a desk") 1 2 3 rfl

/-- C6: when the analyzeFrame call fails, the display text becomes exactly
the fixed fallback message, independent of the raw error, and the run
leaves every other field of the component state, in particular status,
unchanged. -/
theorem hud_analysis_failure_fallback (st : HUDState) (w h : Nat)
    (e : String) (nH nM nS : Nat)
    (hidle : st.isAnalyzing = false) (hw : w ≠ 0) (hh : h ≠ 0) :
    handleCaptureAndAnalyze st true true w h true (.error e) nH nM nS =
      { state :=
          { st with isAnalyzing := false, aiResponse := some "Analysis failed. Check API configuration." },
        calledAnalyzeFrame := true }
    ∧ (handleCaptureAndAnalyze st true true w h true (.error e)
        nH nM nS).state.status = st.status := by
  have hdim : (w == 0 || h == 0) = false := by simp [hw, hh]
  constructor
  · simp [handleCaptureAndAnalyze, hidle, hdim]
  · simp [handleCaptureAndAnalyze, hidle, hdim]

theorem hud_analysis_failure_fallback_witness :
    handleCaptureAndAnalyze hudConnectedIdle
        true true 640 480 true (.error "http 500") 1 2 3 =
      { state :=
          { hudConnectedIdle with isAnalyzing := false, aiResponse := some "Analysis failed. Check API configuration." },
        calledAnalyzeFrame := true } :=
  (hud_analysis_failure_fallback hudConnectedIdle 640 480 "http 500" 1 2 3 rfl
    (by decide) (by decide)).1

/-- C9: a blocked playback attempt never moves the controller into ERROR:
it keeps the status and raises the needsUserAction affordance, whose Tap
to Start overlay is then visible; a single later attemptPlay triggered by
the user that succeeds sets status to CONNECTED and clears the
affordance. -/
theorem hud_autoplay_blocked_recovery (st : HUDState)
    (hne : st.status ≠ .ERROR) :
    (attemptPlay true false st).status = st.status
    ∧ (attemptPlay true false st).status ≠ .ERROR
    ∧ tapToStartVisible (attemptPlay true false st) = true
    ∧ (attemptPlay true true (attemptPlay true false st)).status = .CONNECTED
    ∧ (attemptPlay true true (attemptPlay true false st)).needsUserAction = false := by
  refine ⟨rfl, ?_, rfl, rfl, rfl⟩
  simpa [attemptPlay] using hne

theorem hud_autoplay_blocked_recovery_witness :
    tapToStartVisible (attemptPlay true false hudScanningIdle) = true
    ∧ (attemptPlay true true
        (attemptPlay true false hudScanningIdle)).status = .CONNECTED := by
  have h := hud_autoplay_blocked_recovery hudScanningIdle (by decide)
  exact ⟨h.2.2.1, h.2.2.2.1⟩

/-- C10: analyzeFrame re-throws every failure, including a missing API
key and any service error, as the single opaque message, and maps an
empty service response text to the fixed no-data string instead of
failing. -/
theorem gemini_analyzeFrame_masks_failures (apiKey : Option String)
    (service : String → Except String String) (base64Image : String) :
    (jsFalsy apiKey = true →
        analyzeFrame apiKey service base64Image =
          .error "Visual cortex analysis failed.")
    ∧ (∀ e, service (stripDataUrl base64Image) = .error e →
        analyzeFrame apiKey service base64Image =
          .error "Visual cortex analysis failed.")
    ∧ (jsFalsy apiKey = false → service (stripDataUrl base64Image) = .ok "" →
        analyzeFrame apiKey service base64Image =
          .ok "No analysis data returned.") := by
  refine ⟨?_, ?_, ?_⟩
  · intro h
    simp [analyzeFrame, h]
  · intro e he
    by_cases hk : jsFalsy apiKey = true
    · simp [analyzeFrame, hk]
    · rw [Bool.not_eq_true] at hk
      simp [analyzeFrame, hk, he]
  · intro hk he
    simp [analyzeFrame, hk, he, String.isEmpty]

theorem gemini_analyzeFrame_masks_failures_witness :
    analyzeFrame none (fun _ => .ok "a desk") "img" =
      .error "Visual cortex analysis failed."
    ∧ analyzeFrame (some "k") (fun _ => .error "http 500") "img" =
      .error "Visual cortex analysis failed."
    ∧ analyzeFrame (some "k") (fun _ => .ok "") "img" =
      .ok "No analysis data returned." :=
  ⟨(gemini_analyzeFrame_masks_failures none (fun _ => .ok "a desk") "img").1 rfl,
   (gemini_analyzeFrame_masks_failures (some "k") (fun _ => .error "http 500") "img").2.1
     "http 500" rfl,
   (gemini_analyzeFrame_masks_failures (some "k") (fun _ => .ok "") "img").2.2 rfl rfl⟩
